import Mathlib

/-!
Shallow embedding of `src/interface.py` (SUXESs lab microcontroller client).

The embedding models:
* the Python exceptions that the source can raise (`PyErr`),
* the scalar Python values that flow through the client (`PyVal`),
  with CPython `float` modelled as an exact rational — every constant
  appearing in the source and in the properties below is decimal, and
  only parsing, equality and order are used, where the rational model
  agrees with the decimal reading of the literals,
* relay JSON responses as association lists of string keys to scalar
  values (`Json`) — the source only ever inspects scalar fields,
* `Interface.get_variable`, `Interface.call_function`,
  `Interface.__call__` (as `interface_call`), `Interface.parse_status`,
  and the `Menu` pieces `string_print` and `_threshold_submenu` that the
  verified properties mention.

Network I/O is modelled by passing the relay's JSON response as an
explicit argument and recording in `NetResult.requested` whether the
control flow reached the HTTP request (the source performs its
`assert`-based whitelist validation strictly before `requests.get`/
`requests.post`).
-/

namespace Sentinel

/-- Python exception classes that the embedded code can raise. -/
inductive PyErr where
  | assertionError
  | valueError
  | typeError
  | attributeError
  | keyError
deriving DecidableEq, Repr

/-- Scalar Python values handled by the client.  CPython floats are
modelled as exact rationals (see module docstring). -/
inductive PyVal where
  | int (n : Int)
  | float (q : Rat)
  | bool (b : Bool)
  | str (s : String)
deriving DecidableEq, Repr

/-- A relay JSON object, restricted to the scalar fields the source
inspects.  Keys are unique in a JSON object as produced by
`requests.Response.json()`. -/
abbrev Json := List (String × PyVal)

/-- Python `dict.__contains__` / field lookup on a JSON object:
`r.json()['result']` etc. -/
def jsonLookup (j : Json) (k : String) : Option PyVal :=
  (j.find? (fun p => p.1 == k)).map Prod.snd

/-- Result of one `Interface` operation: a scalar, or the `OrderedDict`
produced by `parse_status` for the `status` variable. -/
inductive CallResult where
  | val (v : PyVal)
  | record (d : List (String × PyVal))
deriving DecidableEq, Repr

/-- Outcome of an operation together with whether the control flow
reached the HTTP request (`requests.get`/`requests.post`). -/
structure NetResult (α : Type) where
  outcome : Except PyErr α
  requested : Bool
deriving Repr

/-- Decidable equality for `Except`, used to evaluate operation
outcomes on concrete inputs. -/
instance {ε α : Type} [DecidableEq ε] [DecidableEq α] :
    DecidableEq (Except ε α) := fun x y =>
  match x, y with
  | .ok a, .ok b =>
    if h : a = b then .isTrue (by rw [h]) else
      .isFalse (fun hc => by cases hc; exact h rfl)
  | .error a, .error b =>
    if h : a = b then .isTrue (by rw [h]) else
      .isFalse (fun hc => by cases hc; exact h rfl)
  | .ok _, .error _ => .isFalse (fun hc => by cases hc)
  | .error _, .ok _ => .isFalse (fun hc => by cases hc)

/-! ### String primitives

Python `str.split(sep)` with a one-character separator, modelled by
structural recursion over the character list: every occurrence of the
separator ends a token, empty tokens are kept, and the empty string
splits into `[""]` — exactly CPython's semantics for `split` with an
explicit separator. -/

/-- Split a character list at every occurrence of `sep`. -/
def splitChars (sep : Char) : List Char → List (List Char)
  | [] => [[]]
  | c :: rest =>
    match splitChars sep rest with
    | [] => [[]]
    | g :: gs => if c = sep then [] :: g :: gs else (c :: g) :: gs

/-- Python `s.split(sep)` for a one-character separator. -/
def pySplit (s : String) (sep : Char) : List String :=
  (splitChars sep s.data).map String.mk

/-- Python `str.strip()` with no argument: remove leading and trailing
whitespace. -/
def charTrim (cs : List Char) : List Char :=
  ((cs.dropWhile Char.isWhitespace).reverse.dropWhile Char.isWhitespace).reverse

/-! ### Python `int(...)` / `float(...)` on strings

`interface.py` line 92 calls `int(v)`, line 94 calls `float(v)`, and
`_threshold_submenu` (line 200/204) calls `int(...)`.  The models below
cover the decimal literal grammar (optional surrounding whitespace,
optional sign, digits, and for floats an optional fractional part and
exponent).  CPython extras that no property touches (digit-group
underscores, `inf`/`nan` spellings, unicode digits) are not modelled. -/

/-- Leading decimal digits of a character list, and the remainder. -/
def takeDigits : List Char → List Char × List Char
  | [] => ([], [])
  | c :: cs =>
    if c.isDigit then
      let (ds, rest) := takeDigits cs
      (c :: ds, rest)
    else ([], c :: cs)

/-- Value of a list of decimal digits (most significant first). -/
def digitsToNat (ds : List Char) : Nat :=
  ds.foldl (fun n c => n * 10 + (c.toNat - 48)) 0

/-- Python `int(s)` for a string argument: `none` models a raised
`ValueError`. -/
def pyParseInt (s : String) : Option Int :=
  let cs := charTrim s.data
  let (sgn, cs) :=
    match cs with
    | '+' :: r => ((1 : Int), r)
    | '-' :: r => ((-1 : Int), r)
    | r => ((1 : Int), r)
  let (ds, rest) := takeDigits cs
  if ds.isEmpty || !rest.isEmpty then none
  else some (sgn * (digitsToNat ds : Int))

/-- Python `float(s)` for a string argument, on the decimal literal
grammar: `none` models a raised `ValueError`. -/
def pyParseFloat (s : String) : Option Rat :=
  let cs := charTrim s.data
  let (sgn, cs) :=
    match cs with
    | '+' :: r => ((1 : Rat), r)
    | '-' :: r => ((-1 : Rat), r)
    | r => ((1 : Rat), r)
  let (ip, cs) := takeDigits cs
  let (fp, cs) :=
    match cs with
    | '.' :: r => takeDigits r
    | r => (([] : List Char), r)
  if ip.isEmpty && fp.isEmpty then none
  else
    let mantissa : Rat :=
      (digitsToNat ip : Rat) + (digitsToNat fp : Rat) / ((10 : Rat) ^ fp.length)
    let (eo, cs) :=
      match cs with
      | 'e' :: r | 'E' :: r =>
        let (esgn, r2) :=
          match r with
          | '+' :: t => ((1 : Int), t)
          | '-' :: t => ((-1 : Int), t)
          | t => ((1 : Int), t)
        let (ed, r3) := takeDigits r2
        if ed.isEmpty then (none, r3)
        else (some (esgn * (digitsToNat ed : Int)), r3)
      | r => (some (0 : Int), r)
    match eo with
    | none => none
    | some e => if cs.isEmpty then some (sgn * mantissa * (10 : Rat) ^ e) else none

/-! ### `Interface.parse_status` (interface.py lines 84–95) -/

/-- The keys decoded as booleans (interface.py line 91). -/
def boolKeys : List String := ["power", "ups", "armed"]

/-- The per-pair conversion of `parse_status` (lines 91–94):
`bool(int(v))` for boolean keys, `float(v)` otherwise; a parse failure
is a raised `ValueError`. -/
def decode_value (k v : String) : Except PyErr PyVal :=
  if k ∈ boolKeys then
    match pyParseInt v with
    | some n => .ok (.bool (n != 0))
    | none => .error .valueError
  else
    match pyParseFloat v with
    | some q => .ok (.float q)
    | none => .error .valueError

/-- `OrderedDict.__setitem__`: an existing key keeps its position and
gets the new value; a new key is appended at the end (line 92/94). -/
def odInsert (d : List (String × PyVal)) (k : String) (v : PyVal) :
    List (String × PyVal) :=
  if d.any (fun p => p.1 == k) then
    d.map (fun p => if p.1 = k then (k, v) else p)
  else d ++ [(k, v)]

/-- One iteration of the `parse_status` loop (lines 89–94):
`k, v = pair.split(':')` raises `ValueError` unless the split yields
exactly two parts, then the pair is converted and stored. -/
def parse_pair (d : List (String × PyVal)) (pair : String) :
    Except PyErr (List (String × PyVal)) :=
  match pySplit pair ':' with
  | [k, v] => (decode_value k v).map (fun val => odInsert d k val)
  | _ => .error .valueError

/-- `Interface.parse_status` (lines 84–95).  The argument is whatever
`get_variable` returned.  `assert status is not -1` raises
`AssertionError` on the sentinel `-1` (CPython interns small integers,
so the identity test coincides with equality on the `int` `-1`); any
other non-string then fails at `status.split(',')` with
`AttributeError`. -/
def parse_status (status : PyVal) : Except PyErr (List (String × PyVal)) :=
  match status with
  | .int n => if n = -1 then .error .assertionError else .error .attributeError
  | .float _ => .error .attributeError
  | .bool _ => .error .attributeError
  | .str s => (pySplit s ',').foldlM parse_pair []

/-! ### `Interface` whitelists and remote operations (lines 35–82) -/

/-- `Interface.exposed_variables` (line 35). -/
def exposed_variables : List String := ["power", "upspower", "pressure", "status"]

/-- `Interface.exposed_functions` (lines 36–40). -/
def exposed_functions : List (String × List String) :=
  [("alarm", ["arm", "disarm"]),
   ("led", ["on", "off"]),
   ("threshold", ["2400", "2500", "2600", "2700", "2800"]),
   ("test", [""])]

/-- `Interface.get_variable` (lines 56–66).  The relay's JSON response
is passed explicitly; `requested` records whether `requests.get` was
reached.  A response without a `result` field yields the sentinel
`-1`.  (The source's parameter is called `variable`, a reserved word in
Lean, hence `var`.) -/
def get_variable (var : String) (response : Json) : NetResult PyVal :=
  if var ∈ exposed_variables then
    match jsonLookup response "result" with
    | none => ⟨.ok (.int (-1)), true⟩
    | some v => ⟨.ok v, true⟩
  else ⟨.error .assertionError, false⟩

/-- `Interface.call_function` (lines 68–82).  The three `assert`s run
before `requests.post`; a response without a `return_value` field
yields the sentinel `-1`. -/
def call_function (function : String) (argument : PyVal) (response : Json) :
    NetResult PyVal :=
  match argument with
  | .str a =>
    if function ∈ exposed_functions.map Prod.fst then
      if a ∈ (exposed_functions.lookup function).getD [] then
        match jsonLookup response "return_value" with
        | none => ⟨.ok (.int (-1)), true⟩
        | some v => ⟨.ok v, true⟩
      else ⟨.error .assertionError, false⟩
    else ⟨.error .assertionError, false⟩
  | _ => ⟨.error .assertionError, false⟩

/-- `Interface.__call__` (lines 42–54): one argument reads a variable
(`status` additionally runs `parse_status` on the raw read), two
arguments call a function. -/
def interface_call (name : String) (argument : Option PyVal) (response : Json) :
    NetResult CallResult :=
  match argument with
  | none =>
    let r := get_variable name response
    if name = "status" then
      match r.outcome with
      | .ok v =>
        match parse_status v with
        | .ok d => ⟨.ok (.record d), r.requested⟩
        | .error e => ⟨.error e, r.requested⟩
      | .error e => ⟨.error e, r.requested⟩
    else ⟨r.outcome.map .val, r.requested⟩
  | some a =>
    let r := call_function name a response
    ⟨r.outcome.map .val, r.requested⟩

/-! ### `Menu` (interface.py lines 98–213)

Only the pieces the verified properties mention are embedded:
`string_print` and `_threshold_submenu`.  `cprint` wraps a message in
ANSI color codes selected by a style name; the embedding carries the
style name (`"ok"`, `"warn"`, `"fail"`, …) instead of the escape
sequences, which are pure presentation. -/

/-- `Menu.messages` (lines 111–117): per-key message template, ok-word
and fail-word. -/
def messages : List (String × (String × Option String × Option String)) :=
  [("power", ("External power is %s.", some "OK", some "DOWN")),
   ("upspower", ("UPS power is %s.", some "OK", some "DOWN")),
   ("ups", ("UPS power is %s.", some "OK", some "DOWN")),
   ("armed", ("Alarms are %s.", some "enabled", some "disabled")),
   ("pressure", ("Pressure is %.2f mbar.", none, none)),
   ("pthresh", ("Pressure threshold is %.0f mbar.", none, none))]

/-- Python truthiness, for `message % ok if v else message % fail`
(line 146). -/
def pyTruthy : PyVal → Bool
  | .int n => n != 0
  | .float q => q != 0
  | .bool b => b
  | .str s => s != ""

/-- Python `v < q` against a float constant (line 144): numeric values
compare numerically, a string raises `TypeError`. -/
def pyLtRat (v : PyVal) (q : Rat) : Option Bool :=
  match v with
  | .int n => some (decide ((n : Rat) < q))
  | .float x => some (decide (x < q))
  | .bool b => some (decide ((if b then (1 : Rat) else 0) < q))
  | .str _ => none

/-- `Menu.string_print` (lines 140–147).  Returns the printed message
and the `cprint` style name.  For the numeric keys the `%.2f`/`%.0f`
rendering of the value into the template is display-only and left
unapplied (the template is returned as is); for the boolean keys the
`%s` substitution is performed.  A key absent from `messages` raises
`KeyError` (line 141), a non-numeric value under a numeric key raises
`TypeError` at `message % v`. -/
def string_print (k : String) (v : PyVal) : Except PyErr (String × String) :=
  match messages.lookup k with
  | none => .error .keyError
  | some (message, okw, failw) =>
    if k ∈ ["pressure", "pthresh"] then
      match pyLtRat v 2501 with
      | none => .error .typeError
      | some lt => .ok (message, if lt then "ok" else "warn")
    else
      if pyTruthy v then .ok (message.replace "%s" (okw.getD "None"), "ok")
      else .ok (message.replace "%s" (failw.getD "None"), "fail")

/-- Python `"%d" % res` (line 203): formats integers (and numeric
subtypes: booleans as `0`/`1`, floats truncated toward zero); a string
or dict raises `TypeError`. -/
def pyFormatD : CallResult → Except PyErr String
  | .val (.int n) => .ok (toString n)
  | .val (.bool b) => .ok (if b then "1" else "0")
  | .val (.float q) => .ok (toString (if q < 0 then q.ceil else q.floor))
  | .val (.str _) => .error .typeError
  | .record _ => .error .typeError

/-- Python `res == int(new_pressure)` (line 204): numeric cross-type
equality; any non-numeric `res` is simply unequal. -/
def pyEqInt : CallResult → Int → Bool
  | .val (.int m), n => m == n
  | .val (.bool b), n => (if b then (1 : Int) else 0) == n
  | .val (.float q), n => q == (n : Rat)
  | .val (.str _), _ => false
  | .record _, _ => false

/-- `Menu._threshold_submenu` (lines 192–210), as a function of the
operator's typed choice and the relay response to the resulting call.
Returns the argument string sent to the interface (`none` when no call
is made), the final message, and its `cprint` style name.  The header
lines printed with style `head` are presentation-only and not
modelled.  The guard makes `int(new_threshold)` and the list index
total; their error branches model the exceptions `int` and `[]` would
raise outside the guard. -/
def threshold_submenu (choice : String) (response : Json) :
    Except PyErr (Option String × String × String) :=
  let options := (exposed_functions.lookup "threshold").getD []
  if choice ∈ (List.range options.length).map (fun i => toString i) then
    match pyParseInt choice with
    | none => .error .valueError
    | some i =>
      let new_pressure := options.getD i.toNat ""
      let r := interface_call "threshold" (some (.str new_pressure)) response
      match r.outcome with
      | .error e => .error e
      | .ok res =>
        match pyFormatD res with
        | .error e => .error e
        | .ok s =>
          let message := "Pressure alarm threshold set to " ++ s ++ " mbar."
          match pyParseInt new_pressure with
          | none => .error .valueError
          | some np =>
            if pyEqInt res np then .ok (some new_pressure, message, "ok")
            else .ok (some new_pressure,
                      message ++ " Threshold NOT changed, please try again.", "warn")
  else .ok (none, "Wrong option, try again.", "fail")

/-! ### Statement helpers

Definitions used only to state properties; `decodeToken` restates the
per-token decoding of the `parse_status` loop body without the
`OrderedDict` insertion, and `firstDedup`/`lastVal`/`lookupVal` spell
out the `OrderedDict` semantics the claims refer to. -/

/-- The `(key, value)` decoding of one status token: the loop body of
`parse_status` without the dictionary insertion. -/
def decodeToken (t : String) : Except PyErr (String × PyVal) :=
  match pySplit t ':' with
  | [k, v] => (decode_value k v).map (fun val => (k, val))
  | _ => .error .valueError

/-- First-occurrence deduplication of a key list: each key keeps the
position of its first occurrence, later duplicates are dropped. -/
def firstDedup (l : List String) : List String :=
  l.foldl (fun ks k => if k ∈ ks then ks else ks ++ [k]) []

/-- The value attached to the last occurrence of key `k`, if any. -/
def lastVal : List (String × PyVal) → String → Option PyVal
  | [], _ => none
  | p :: rest, k =>
    match lastVal rest k with
    | some v => some v
    | none => if p.1 = k then some p.2 else none

/-- First binding of key `k` in an association list (dictionary
lookup). -/
def lookupVal : List (String × PyVal) → String → Option PyVal
  | [], _ => none
  | p :: rest, k => if p.1 = k then some p.2 else lookupVal rest k

/-- The accepted threshold argument strings, in menu order
(`exposed_functions['threshold']`, line 193). -/
def thresholdOptions : List String :=
  (exposed_functions.lookup "threshold").getD []

/-- The tail of `_threshold_submenu` after the interface call (lines
203–208), factored out so the call outcome can be reasoned about
separately: `np` is `int(new_pressure)`. -/
def threshold_submenu_cont (new_pressure : String) (np : Int)
    (r : NetResult CallResult) : Except PyErr (Option String × String × String) :=
  match r.outcome with
  | .error e => .error e
  | .ok res =>
    match pyFormatD res with
    | .error e => .error e
    | .ok s =>
      let message := "Pressure alarm threshold set to " ++ s ++ " mbar."
      if pyEqInt res np then .ok (some new_pressure, message, "ok")
      else .ok (some new_pressure,
        message ++ " Threshold NOT changed, please try again.", "warn")

/-! ## Theorems -/

/-- C1 (code_bug evidence): with a relay response that lacks the
expected field, reading `power` yields the sentinel `-1` without an
exception, but reading `status` feeds that sentinel into
`parse_status`, whose `assert status is not -1` raises
`AssertionError` — the operation does not yield `-1`. -/
theorem c1_status_timeout_raises :
    interface_call "status" none ([] : Json) =
      ⟨.error .assertionError, true⟩ ∧
    interface_call "power" none ([] : Json) =
      ⟨.ok (.val (.int (-1))), true⟩ :=
  ⟨rfl, rfl⟩

unseal Rat.mul Rat.add Rat.inv in
/-- C2 counterexample: the token `":1"` has exactly one `:` but an
empty key part, so by the claim decoding must fail; instead the code
decodes it successfully and produces a record with an empty key. -/
theorem c2_empty_key_decodes :
    pySplit ":1" ':' = ["", "1"] ∧
    parse_status (.str ":1") = .ok [("", PyVal.float 1)] :=
  ⟨rfl, by decide⟩

lemma pyParseInt_empty : pyParseInt "" = none := rfl

lemma pyParseFloat_empty : pyParseFloat "" = none := rfl

/-- A token whose `:`-split does not have exactly two parts, or whose
value part is empty, makes the loop body raise `ValueError` whatever
the dictionary state. -/
lemma parse_pair_of_bad (t : String)
    (h : (pySplit t ':').length ≠ 2 ∨ ∃ k, pySplit t ':' = [k, ""])
    (d : List (String × PyVal)) :
    parse_pair d t = .error .valueError := by
  unfold parse_pair
  rcases h with h | ⟨k, hk⟩
  · cases hl : pySplit t ':' with
    | nil => rfl
    | cons a l =>
      cases l with
      | nil => rfl
      | cons b l2 =>
        cases l2 with
        | nil => rw [hl] at h; simp at h
        | cons c l3 => rfl
  · rw [hk]
    by_cases hb : k ∈ boolKeys <;>
      simp [decode_value, hb, pyParseInt_empty, pyParseFloat_empty, Except.map]

/-- If some token of the list fails regardless of the accumulated
dictionary, the monadic fold fails. -/
lemma foldlM_parse_pair_error (l : List String) :
    ∀ d, (∃ t ∈ l, ∀ d', parse_pair d' t = .error .valueError) →
    ∃ e, l.foldlM parse_pair d = .error e := by
  induction l with
  | nil =>
    intro d h
    obtain ⟨t, ht, _⟩ := h
    exact absurd ht (List.not_mem_nil t)
  | cons t ts ih =>
    intro d h
    obtain ⟨u, hu, hbad⟩ := h
    rcases List.mem_cons.mp hu with rfl | hmem
    · exact ⟨.valueError, by rw [List.foldlM_cons, hbad d]; rfl⟩
    · cases hpp : parse_pair d t with
      | error e => exact ⟨e, by rw [List.foldlM_cons, hpp]; rfl⟩
      | ok d2 =>
        obtain ⟨e, he⟩ := ih d2 ⟨u, hmem, hbad⟩
        exact ⟨e, by rw [List.foldlM_cons, hpp]; exact he⟩

/-- C2 (amended): if any comma-separated token does not split on `:`
into exactly two parts, or splits into a pair whose value part is
empty, decoding fails for the whole record.  (The claim's further
requirement that an empty key part also fails is refuted by
`c2_empty_key_decodes`.) -/
theorem c2_malformed_or_empty_value_fails (s : String)
    (h : ∃ t ∈ pySplit s ',',
      (pySplit t ':').length ≠ 2 ∨ ∃ k, pySplit t ':' = [k, ""]) :
    ∃ e, parse_status (.str s) = .error e := by
  obtain ⟨t, ht, hbad⟩ := h
  exact foldlM_parse_pair_error (pySplit s ',') []
    ⟨t, ht, fun d' => parse_pair_of_bad t hbad d'⟩

/-- Witness for `c2_malformed_or_empty_value_fails` at the concrete
status string `"a:"` (empty value part). -/
theorem c2_malformed_or_empty_value_fails_witness :
    ∃ e, parse_status (PyVal.str "a:") = .error e :=
  c2_malformed_or_empty_value_fails "a:"
    ⟨"a:", by decide, Or.inr ⟨"a", by decide⟩⟩

/-- C3: reading any name outside the closed set
`{power, upspower, pressure, status}` fails the whitelist `assert`
locally, before any network request is issued. -/
theorem c3_unknown_variable_rejected_locally (name : String) (response : Json)
    (h : name ∉ exposed_variables) :
    interface_call name none response = ⟨.error .assertionError, false⟩ := by
  have hs : name ≠ "status" :=
    fun e => h (e ▸ (by decide : "status" ∈ exposed_variables))
  simp [interface_call, get_variable, hs, h, Except.map]

/-- Witness for `c3_unknown_variable_rejected_locally` at the unknown
name `"foo"`. -/
theorem c3_unknown_variable_rejected_locally_witness :
    interface_call "foo" none ([] : Json) = ⟨.error .assertionError, false⟩ :=
  c3_unknown_variable_rejected_locally "foo" [] (by decide)

/-- C4: a function call whose argument is not a string, or whose
function name is not in `{alarm, led, threshold, test}`, or whose
argument is not in that function's accepted set, fails an `assert`
locally, before any network request is issued. -/
theorem c4_invalid_call_rejected_locally (f : String) (a : PyVal) (response : Json)
    (h : (∀ s, a ≠ PyVal.str s) ∨ f ∉ exposed_functions.map Prod.fst ∨
      ∃ s, a = PyVal.str s ∧ s ∉ (exposed_functions.lookup f).getD []) :
    interface_call f (some a) response = ⟨.error .assertionError, false⟩ := by
  cases a with
  | int n => rfl
  | float q => rfl
  | bool b => rfl
  | str s =>
    rcases h with h | hf | ⟨s', hs', hns⟩
    · exact absurd rfl (h s)
    · simp [interface_call, call_function, hf, Except.map]
    · injection hs' with hss
      subst hss
      by_cases hf : f ∈ exposed_functions.map Prod.fst
      · simp [interface_call, call_function, hf, hns, Except.map]
      · simp [interface_call, call_function, hf, Except.map]

/-- Witness for `c4_invalid_call_rejected_locally`: `"on"` is not an
accepted argument of `"alarm"`. -/
theorem c4_invalid_call_rejected_locally_witness :
    interface_call "alarm" (some (.str "on")) ([] : Json) =
      ⟨.error .assertionError, false⟩ :=
  c4_invalid_call_rejected_locally "alarm" (.str "on") []
    (Or.inr (Or.inr ⟨"on", rfl, by decide⟩))

/-- C6: on a token that splits into `(key, value)`, the decoder parses
`value` as an integer when `key ∈ {power, ups, armed}` — mapping `0` to
`false` and any nonzero integer to `true`, and failing when `value` is
not a valid integer — and otherwise parses `value` as a float, failing
when it is not a valid float. -/
theorem c6_per_key_typing (d : List (String × PyVal)) (pair k v : String)
    (hsplit : pySplit pair ':' = [k, v]) :
    (k ∈ boolKeys →
      (∀ n, pyParseInt v = some n →
        parse_pair d pair = .ok (odInsert d k (.bool (decide (n ≠ 0))))) ∧
      (pyParseInt v = none → parse_pair d pair = .error .valueError)) ∧
    (k ∉ boolKeys →
      (∀ q, pyParseFloat v = some q →
        parse_pair d pair = .ok (odInsert d k (.float q))) ∧
      (pyParseFloat v = none → parse_pair d pair = .error .valueError)) := by
  unfold parse_pair
  rw [hsplit]
  constructor
  · intro hb
    constructor
    · intro n hn
      by_cases hn0 : n = 0
      · simp [decode_value, hb, hn, hn0, Except.map]
      · simp [decode_value, hb, hn, hn0, Except.map]
        rw [show (n != 0) = true from bne_iff_ne.mpr hn0]
    · intro hn
      simp [decode_value, hb, hn, Except.map]
  · intro hb
    constructor
    · intro q hq
      simp [decode_value, hb, hq, Except.map]
    · intro hq
      simp [decode_value, hb, hq, Except.map]

unseal Rat.mul Rat.add Rat.inv in
/-- Witness for `c6_per_key_typing`: the boolean branch on
`"power:1"` and the float branch on `"pthresh:2500"`. -/
theorem c6_per_key_typing_witness :
    parse_pair [] "power:1" = .ok [("power", PyVal.bool true)] ∧
    parse_pair [] "pthresh:2500" = .ok [("pthresh", PyVal.float 2500)] := by
  constructor
  · have h := (c6_per_key_typing [] "power:1" "power" "1" (by decide)).1
      (by decide) |>.1 1 (by decide)
    simpa using h
  · have h := (c6_per_key_typing [] "pthresh:2500" "pthresh" "2500"
      (by decide)).2 (by decide) |>.1 2500 (by decide)
    simpa using h

unseal Rat.mul Rat.add Rat.inv in
/-- C5: decoding the well-formed status string
`"power:1,ups:0,pressure:998.30,pthresh:2500"` succeeds and yields the
ordered record `[power=true, ups=false, pressure=998.30,
pthresh=2500.0]`, in token order, with boolean typing exactly on the
`power`/`ups` keys. -/
theorem c5_wellformed_status_decodes :
    parse_status (.str "power:1,ups:0,pressure:998.30,pthresh:2500") =
      .ok [("power", .bool true), ("ups", .bool false),
           ("pressure", .float (9983 / 10 : Rat)), ("pthresh", .float 2500)] := by
  decide

/-- C7: decoding `"power:1,ups"` (second token has no `:` separator)
fails as a whole with `ValueError`; no record — in particular no
partial record containing the already-decoded `power` field — is
returned. -/
theorem c7_malformed_token_all_or_nothing :
    parse_status (.str "power:1,ups") = .error .valueError :=
  rfl

/-- C8: for a numeric (pressure-like) field, `string_print` classifies
the value as `"ok"` exactly when it is below the fixed literal
`2501.` (line 144) and as `"warn"` otherwise.  The constant is a
literal in `Menu.string_print`: the function takes no device state and
no alarm-threshold argument, so the classification is independent of
the configured alarm threshold. -/
theorem c8_display_threshold_fixed (q : Rat) (k : String)
    (hk : k ∈ ["pressure", "pthresh"]) :
    ∃ m, string_print k (.float q) =
      .ok (m, if q < 2501 then "ok" else "warn") := by
  simp only [List.mem_cons, List.mem_singleton, List.not_mem_nil,
    or_false] at hk
  rcases hk with rfl | rfl
  · refine ⟨"Pressure is %.2f mbar.", ?_⟩
    show (match pyLtRat (PyVal.float q) 2501 with
      | none => Except.error PyErr.typeError
      | some lt =>
        Except.ok ("Pressure is %.2f mbar.", if lt then "ok" else "warn")) = _
    simp [pyLtRat]
  · refine ⟨"Pressure threshold is %.0f mbar.", ?_⟩
    show (match pyLtRat (PyVal.float q) 2501 with
      | none => Except.error PyErr.typeError
      | some lt =>
        Except.ok ("Pressure threshold is %.0f mbar.",
          if lt then "ok" else "warn")) = _
    simp [pyLtRat]

/-- Witness for `c8_display_threshold_fixed`: pressure `0` is below
the display threshold and classified `"ok"`. -/
theorem c8_display_threshold_fixed_witness :
    ∃ m, string_print "pressure" (.float 0) = .ok (m, "ok") := by
  have h := c8_display_threshold_fixed 0 "pressure" (by decide)
  rwa [if_pos (by norm_num : (0 : Rat) < 2501)] at h

/-- A valid `threshold` call whose relay response carries an integer
`return_value` reaches the network and yields that integer. -/
lemma call_threshold_int (a : String) (response : Json) (n : Int)
    (ha : a ∈ (exposed_functions.lookup "threshold").getD [])
    (hresp : jsonLookup response "return_value" = some (.int n)) :
    interface_call "threshold" (some (.str a)) response =
      ⟨.ok (.val (.int n)), true⟩ := by
  simp [interface_call, call_function, hresp, Except.map, ha,
    show ("threshold" : String) ∈ exposed_functions.map Prod.fst from by decide]

/-- The submenu continuation on an integer call result: success and
message depend exactly on whether the returned integer equals the
requested one. -/
lemma threshold_submenu_cont_int (new_pressure : String) (np n : Int) :
    threshold_submenu_cont new_pressure np ⟨.ok (.val (.int n)), true⟩ =
      .ok (some new_pressure,
        (if n = np then
            "Pressure alarm threshold set to " ++ toString n ++ " mbar."
          else
            "Pressure alarm threshold set to " ++ toString n ++ " mbar." ++
              " Threshold NOT changed, please try again."),
        if n = np then "ok" else "warn") := by
  by_cases hn : n = np <;>
    simp [threshold_submenu_cont, pyFormatD, pyEqInt, hn]

/-- C9: for every valid ordinal selection `k`, the threshold submenu
sends exactly `options[k]` as the argument of the `threshold` call,
and — when the relay returns an integer `n` — classifies the outcome
`"ok"` exactly when `n` equals `int(options[k])`, otherwise reporting
"Threshold NOT changed, please try again." with style `"warn"`,
without raising. -/
theorem c9_threshold_selection (k : Nat) (response : Json) (n m : Int)
    (hk : k < thresholdOptions.length)
    (hresp : jsonLookup response "return_value" = some (.int n))
    (hm : pyParseInt (thresholdOptions.getD k "") = some m) :
    threshold_submenu (toString k) response =
      .ok (some (thresholdOptions.getD k ""),
        (if n = m then
            "Pressure alarm threshold set to " ++ toString n ++ " mbar."
          else
            "Pressure alarm threshold set to " ++ toString n ++ " mbar." ++
              " Threshold NOT changed, please try again."),
        if n = m then "ok" else "warn") := by
  have hk5 : k < 5 := hk
  interval_cases k
  · rw [show pyParseInt (thresholdOptions.getD 0 "") = some (2400 : Int)
      from rfl] at hm
    injection hm with hm
    subst hm
    rw [show threshold_submenu (toString 0) response =
        threshold_submenu_cont "2400" 2400
          (interface_call "threshold" (some (.str "2400")) response) from rfl,
      call_threshold_int "2400" response n (by decide) hresp,
      threshold_submenu_cont_int]
    rfl
  · rw [show pyParseInt (thresholdOptions.getD 1 "") = some (2500 : Int)
      from rfl] at hm
    injection hm with hm
    subst hm
    rw [show threshold_submenu (toString 1) response =
        threshold_submenu_cont "2500" 2500
          (interface_call "threshold" (some (.str "2500")) response) from rfl,
      call_threshold_int "2500" response n (by decide) hresp,
      threshold_submenu_cont_int]
    rfl
  · rw [show pyParseInt (thresholdOptions.getD 2 "") = some (2600 : Int)
      from rfl] at hm
    injection hm with hm
    subst hm
    rw [show threshold_submenu (toString 2) response =
        threshold_submenu_cont "2600" 2600
          (interface_call "threshold" (some (.str "2600")) response) from rfl,
      call_threshold_int "2600" response n (by decide) hresp,
      threshold_submenu_cont_int]
    rfl
  · rw [show pyParseInt (thresholdOptions.getD 3 "") = some (2700 : Int)
      from rfl] at hm
    injection hm with hm
    subst hm
    rw [show threshold_submenu (toString 3) response =
        threshold_submenu_cont "2700" 2700
          (interface_call "threshold" (some (.str "2700")) response) from rfl,
      call_threshold_int "2700" response n (by decide) hresp,
      threshold_submenu_cont_int]
    rfl
  · rw [show pyParseInt (thresholdOptions.getD 4 "") = some (2800 : Int)
      from rfl] at hm
    injection hm with hm
    subst hm
    rw [show threshold_submenu (toString 4) response =
        threshold_submenu_cont "2800" 2800
          (interface_call "threshold" (some (.str "2800")) response) from rfl,
      call_threshold_int "2800" response n (by decide) hresp,
      threshold_submenu_cont_int]
    rfl

/-- Witness for `c9_threshold_selection`: selecting option `1` sends
`"2500"` and a returned `2500` is classified `"ok"`. -/
theorem c9_threshold_selection_witness :
    ∃ msg, threshold_submenu "1" [("return_value", PyVal.int 2500)] =
      .ok (some "2500", msg, "ok") := by
  have h := c9_threshold_selection 1 [("return_value", PyVal.int 2500)]
    2500 2500 (by decide) (by decide) (by decide)
  rw [if_pos rfl, if_pos rfl] at h
  exact ⟨_, h⟩

/-! ### `OrderedDict` lemmas for the duplicate-key behavior (C10) -/

lemma lookupVal_isSome (d : List (String × PyVal)) (k : String) :
    (lookupVal d k).isSome = d.any (fun p => p.1 == k) := by
  induction d with
  | nil => rfl
  | cons p rest ih => by_cases hpk : p.1 = k <;> simp [lookupVal, hpk, ih]

lemma replace_lookup_same (d : List (String × PyVal)) (k : String) (v : PyVal) :
    lookupVal (d.map (fun p => if p.1 = k then (k, v) else p)) k =
      (lookupVal d k).map (fun _ => v) := by
  induction d with
  | nil => rfl
  | cons p rest ih =>
    by_cases hpk : p.1 = k
    · simp [lookupVal, hpk]
    · simp [lookupVal, hpk, ih]

lemma replace_lookup_other (d : List (String × PyVal)) (k : String) (v : PyVal)
    (k' : String) (hk : k' ≠ k) :
    lookupVal (d.map (fun p => if p.1 = k then (k, v) else p)) k' =
      lookupVal d k' := by
  induction d with
  | nil => rfl
  | cons p rest ih =>
    by_cases hpk : p.1 = k
    · simp [lookupVal, hpk, Ne.symm hk, ih]
    · simp [lookupVal, hpk, ih]

lemma append_lookup (d : List (String × PyVal)) (k : String) (v : PyVal)
    (k' : String) :
    lookupVal (d ++ [(k, v)]) k' =
      match lookupVal d k' with
      | some w => some w
      | none => if k = k' then some v else none := by
  induction d with
  | nil => rfl
  | cons p rest ih =>
    by_cases hpk : p.1 = k'
    · simp [lookupVal, hpk]
    · simp [lookupVal, hpk, ih]

/-- `OrderedDict.__setitem__` and lookup: setting `k` makes it look up
to the new value and leaves every other key unchanged. -/
lemma odInsert_lookupVal (d : List (String × PyVal)) (k : String) (v : PyVal)
    (k' : String) :
    lookupVal (odInsert d k v) k' = if k' = k then some v else lookupVal d k' := by
  unfold odInsert
  by_cases hany : d.any (fun p => p.1 == k) = true
  · rw [if_pos hany]
    by_cases hk : k' = k
    · subst hk
      rw [replace_lookup_same, if_pos rfl]
      have h2 : (lookupVal d k').isSome = true := by
        rw [lookupVal_isSome]; exact hany
      cases hl : lookupVal d k' with
      | none => rw [hl] at h2; cases h2
      | some w => rfl
    · rw [replace_lookup_other _ _ _ _ hk, if_neg hk]
  · rw [if_neg hany, append_lookup]
    have hnone : lookupVal d k = none := by
      cases hl : lookupVal d k with
      | none => rfl
      | some w =>
        exfalso
        apply hany
        rw [← lookupVal_isSome, hl]
        rfl
    by_cases hk : k' = k
    · subst hk
      rw [hnone, if_pos rfl]
    · rw [if_neg hk]
      cases lookupVal d k' with
      | some w => rfl
      | none => rw [if_neg (fun e => hk e.symm)]

lemma any_eq_mem_keys (d : List (String × PyVal)) (k : String) :
    d.any (fun p => p.1 == k) = true ↔ k ∈ d.map Prod.fst := by
  simp [List.any_eq_true, List.mem_map, beq_iff_eq]

/-- `OrderedDict.__setitem__` and key order: an existing key keeps the
key list unchanged, a new key is appended at the end. -/
lemma odInsert_keys (d : List (String × PyVal)) (k : String) (v : PyVal) :
    (odInsert d k v).map Prod.fst =
      if k ∈ d.map Prod.fst then d.map Prod.fst else d.map Prod.fst ++ [k] := by
  unfold odInsert
  by_cases h : k ∈ d.map Prod.fst
  · rw [if_pos ((any_eq_mem_keys d k).mpr h), if_pos h, List.map_map]
    apply List.map_congr_left
    intro p _
    by_cases hpk : p.1 = k
    · simp only [Function.comp]
      rw [if_pos hpk]
      exact hpk.symm
    · simp only [Function.comp]
      rw [if_neg hpk]
  · rw [if_neg (fun hc => h ((any_eq_mem_keys d k).mp hc)), if_neg h,
      List.map_append]
    rfl

/-- Folding `odInsert` over decoded pairs: the key list evolves by
first-occurrence deduplication. -/
lemma odFold_keys (pairs : List (String × PyVal)) :
    ∀ d, ((pairs.foldl (fun d p => odInsert d p.1 p.2) d).map Prod.fst) =
      (pairs.map Prod.fst).foldl
        (fun ks k => if k ∈ ks then ks else ks ++ [k]) (d.map Prod.fst) := by
  induction pairs with
  | nil => intro d; rfl
  | cons p ps ih =>
    intro d
    simp only [List.foldl_cons, List.map_cons]
    rw [ih, odInsert_keys]

/-- Folding `odInsert` over decoded pairs: every key looks up to the
value of its last occurrence, keys never written fall through. -/
lemma odFold_lookupVal (pairs : List (String × PyVal)) :
    ∀ d k, lookupVal (pairs.foldl (fun d p => odInsert d p.1 p.2) d) k =
      match lastVal pairs k with
      | some v => some v
      | none => lookupVal d k := by
  induction pairs with
  | nil => intro d k; rfl
  | cons p ps ih =>
    intro d k
    simp only [List.foldl_cons, lastVal]
    rw [ih, odInsert_lookupVal]
    cases lastVal ps k with
    | some v => rfl
    | none =>
      by_cases hk : p.1 = k
      · rw [if_pos hk, if_pos hk.symm]
      · rw [if_neg hk, if_neg (fun e => hk e.symm)]

lemma firstDedup_aux_nodup (l : List String) :
    ∀ acc : List String, acc.Nodup →
      (l.foldl (fun ks k => if k ∈ ks then ks else ks ++ [k]) acc).Nodup := by
  induction l with
  | nil => intro acc h; exact h
  | cons a l ih =>
    intro acc h
    simp only [List.foldl_cons]
    by_cases ha : a ∈ acc
    · rw [if_pos ha]; exact ih acc h
    · rw [if_neg ha]
      exact ih _ (by simp [List.nodup_append, h, ha])

lemma firstDedup_aux_mem (l : List String) :
    ∀ acc k, (k ∈ l.foldl (fun ks k => if k ∈ ks then ks else ks ++ [k]) acc) ↔
      k ∈ acc ∨ k ∈ l := by
  induction l with
  | nil => intro acc k; simp
  | cons a l ih =>
    intro acc k
    simp only [List.foldl_cons]
    by_cases ha : a ∈ acc
    · rw [if_pos ha, ih]
      constructor
      · rintro (h | h)
        · exact Or.inl h
        · exact Or.inr (List.mem_cons_of_mem a h)
      · rintro (h | h)
        · exact Or.inl h
        · rcases List.mem_cons.mp h with rfl | h
          · exact Or.inl ha
          · exact Or.inr h
    · rw [if_neg ha, ih]
      simp only [List.mem_append, List.mem_singleton, List.mem_cons]
      tauto

/-- The loop body as the decoded pair plus the dictionary insertion. -/
lemma parse_pair_eq_decodeToken (d : List (String × PyVal)) (t : String) :
    parse_pair d t = (decodeToken t).map (fun p => odInsert d p.1 p.2) := by
  unfold parse_pair decodeToken
  cases h : pySplit t ':' with
  | nil => rfl
  | cons a l =>
    cases l with
    | nil => rfl
    | cons b l2 =>
      cases l2 with
      | nil =>
        show (decode_value a b).map (fun val => odInsert d a val) =
          Except.map (fun p => odInsert d p.1 p.2)
            ((decode_value a b).map (fun val => (a, val)))
        cases decode_value a b <;> rfl
      | cons c l3 => rfl

/-- When every token decodes, `parse_status`'s fold succeeds and is the
plain `odInsert` fold of the decoded pairs. -/
lemma decode_fold (ts : List String) :
    ∀ (pairs : List (String × PyVal)) (d : List (String × PyVal)),
      ts.map decodeToken = pairs.map Except.ok →
      ts.foldlM parse_pair d =
        .ok (pairs.foldl (fun d p => odInsert d p.1 p.2) d) := by
  induction ts with
  | nil =>
    intro pairs d h
    have : pairs = [] := by
      cases pairs with
      | nil => rfl
      | cons p ps => simp at h
    subst this
    rfl
  | cons t ts ih =>
    intro pairs d h
    cases pairs with
    | nil => simp at h
    | cons p ps =>
      simp only [List.map_cons, List.cons.injEq] at h
      obtain ⟨h1, h2⟩ := h
      have hpp : parse_pair d t = .ok (odInsert d p.1 p.2) := by
        rw [parse_pair_eq_decodeToken, h1]
        rfl
      rw [List.foldlM_cons, hpp]
      exact ih ps _ h2

/-- C10: a status string all of whose tokens decode, with some key
occurring more than once, decodes successfully (no error), and the
resulting record lists each written key exactly once (`Nodup` keys, all
written keys present), at the position of its first occurrence
(`firstDedup` of the token keys), bound to the value of its last
occurrence (`lastVal`). -/
theorem c10_duplicate_keys_last_wins (s : String)
    (pairs : List (String × PyVal))
    (hdec : (pySplit s ',').map decodeToken = pairs.map Except.ok)
    (_hdup : ∃ k, 1 < (pairs.map Prod.fst).count k) :
    ∃ d, parse_status (.str s) = .ok d ∧
      (d.map Prod.fst).Nodup ∧
      d.map Prod.fst = firstDedup (pairs.map Prod.fst) ∧
      (∀ k, k ∈ pairs.map Prod.fst → k ∈ d.map Prod.fst) ∧
      (∀ k, lookupVal d k = lastVal pairs k) := by
  refine ⟨pairs.foldl (fun d p => odInsert d p.1 p.2) [], ?_, ?_, ?_, ?_, ?_⟩
  · exact decode_fold (pySplit s ',') pairs [] hdec
  · rw [odFold_keys]
    exact firstDedup_aux_nodup _ [] List.nodup_nil
  · rw [odFold_keys]
    rfl
  · intro k hk
    rw [odFold_keys]
    rw [firstDedup_aux_mem]
    exact Or.inr hk
  · intro k
    rw [odFold_lookupVal]
    cases lastVal pairs k with
    | some v => rfl
    | none => rfl

unseal Rat.mul Rat.add Rat.inv in
/-- Witness for `c10_duplicate_keys_last_wins`: `"power:1,power:0"`
decodes to the single-entry record `power=false`. -/
theorem c10_duplicate_keys_last_wins_witness :
    ∃ d, parse_status (.str "power:1,power:0") = .ok d ∧
      (d.map Prod.fst).Nodup ∧
      d.map Prod.fst =
        firstDedup ([("power", PyVal.bool true),
          ("power", PyVal.bool false)].map Prod.fst) ∧
      (∀ k, k ∈ [("power", PyVal.bool true),
          ("power", PyVal.bool false)].map Prod.fst →
        k ∈ d.map Prod.fst) ∧
      (∀ k, lookupVal d k =
        lastVal [("power", PyVal.bool true), ("power", PyVal.bool false)] k) :=
  c10_duplicate_keys_last_wins "power:1,power:0"
    [("power", PyVal.bool true), ("power", PyVal.bool false)]
    (by decide) ⟨"power", by decide⟩

end Sentinel
